import Mathlib

/-!
Verification of the satellite realtime-transcription bridge.

This file embeds, as executable Lean definitions, the parts of the code that
the specification claims talk about:

* `rtp_server.py` — the `RTPStreamReader` ring buffer (`feed_data`, `read`,
  `clear`) and the datagram demultiplexing loop of
  `RTPProtocol.datagram_received`;
* `asterisk_bridge.py` — the speaker-identity reconciliation performed in
  `_handle_stasis_start` after both RTP streams exist, and the teardown
  action sequence of `close_channel`;
* `deepgram_connector.py` — the final-transcript construction and the action
  trace of `close`;
* `api.py` — the enrichment tail of the `get_transcription` endpoint;
* `db.py` — the transcript-row upsert operations;
* `main.py` — the startup key check and the resulting process exit code.

Each definition is a direct translation of the corresponding Python; theorems
below settle the specification claims against these definitions.
-/

namespace Satellite

/-! ## RTP stream reader (rtp_server.py, RTPStreamReader)

Bytes are modelled as `Nat`; the buffer is a `List Nat` whose head is the
oldest byte (Python `bytearray`, `del buf[:excess]` drops from the front).
-/

/-- Default `_max_buffer_size` set in `RTPStreamReader.__init__`. -/
def max_buffer_size : Nat := 32000

/-- `RTPStreamReader.feed_data`: when appending `data` would exceed
`max_buffer_size`, the excess oldest bytes are deleted from the front first
(`del self._buffer[:excess]`), then `data` is appended. -/
def feed_data (buffer data : List Nat) : List Nat :=
  let buffer :=
    if buffer.length + data.length > max_buffer_size then
      buffer.drop (buffer.length + data.length - max_buffer_size)
    else buffer
  buffer ++ data

/-- `RTPStreamReader.read`: returns at most `bytes_count` bytes from the
front and removes them from the buffer (empty result on empty buffer). -/
def read (buffer : List Nat) (bytes_count : Nat) : List Nat × List Nat :=
  (buffer.take bytes_count, buffer.drop bytes_count)

/-- `RTPStreamReader.clear`: empties the buffer. -/
def clear (_ : List Nat) : List Nat := []

/-- An operation applied to a reader buffer. -/
inductive RBOp where
  | feed (data : List Nat)
  | readOp (bytes_count : Nat)
  | clearOp
deriving DecidableEq

/-- Buffer state after one operation. -/
def applyRBOp (buffer : List Nat) : RBOp → List Nat
  | .feed data => feed_data buffer data
  | .readOp n => (read buffer n).2
  | .clearOp => clear buffer

/-- Buffer state after a sequence of operations, starting from `buffer`. -/
def runRBOps (buffer : List Nat) (ops : List RBOp) : List Nat :=
  ops.foldl applyRBOp buffer

/-- Size of the data fed by an operation (0 for read/clear). -/
def rbOpFeedSize : RBOp → Nat
  | .feed data => data.length
  | .readOp _ => 0
  | .clearOp => 0

theorem feed_data_length (buffer data : List Nat) :
    (feed_data buffer data).length =
      if buffer.length + data.length > max_buffer_size then
        buffer.length - (buffer.length + data.length - max_buffer_size) + data.length
      else buffer.length + data.length := by
  simp only [feed_data]
  split <;> simp

theorem feed_data_le_of_data_le (buffer data : List Nat)
    (h : data.length ≤ max_buffer_size) :
    (feed_data buffer data).length ≤ max_buffer_size := by
  rw [feed_data_length]
  split
  · omega
  · omega

theorem feed_data_eq_drop_append (buffer data : List Nat)
    (h : data.length ≤ max_buffer_size) :
    feed_data buffer data =
      (buffer ++ data).drop (buffer.length + data.length - max_buffer_size) := by
  simp only [feed_data]
  split
  · rw [List.drop_append_of_le_length (by omega)]
  · have : buffer.length + data.length - max_buffer_size = 0 := by omega
    simp [this]

theorem applyRBOp_le (buffer : List Nat) (op : RBOp)
    (hb : buffer.length ≤ max_buffer_size)
    (hop : rbOpFeedSize op ≤ max_buffer_size) :
    (applyRBOp buffer op).length ≤ max_buffer_size := by
  cases op with
  | feed data => exact feed_data_le_of_data_le buffer data hop
  | readOp n =>
      simp only [applyRBOp, read]
      calc (buffer.drop n).length ≤ buffer.length := by simp [Nat.sub_le]
        _ ≤ max_buffer_size := hb
  | clearOp => simp [applyRBOp, clear]

theorem runRBOps_le (ops : List RBOp) (buffer : List Nat)
    (hb : buffer.length ≤ max_buffer_size)
    (hops : ∀ op ∈ ops, rbOpFeedSize op ≤ max_buffer_size) :
    (runRBOps buffer ops).length ≤ max_buffer_size := by
  induction ops generalizing buffer with
  | nil => simpa [runRBOps] using hb
  | cons op rest ih =>
      simp only [runRBOps, List.foldl_cons]
      exact ih (applyRBOp buffer op)
        (applyRBOp_le buffer op hb (hops op (by simp)))
        (fun o ho => hops o (by simp [ho]))

theorem runRBOps_single_feed (data : List Nat) :
    runRBOps [] [RBOp.feed data] = feed_data [] data := rfl

/-- C3: the ring buffer exceeds its cap when a single `feed_data` receives
more than `max_buffer_size` bytes: `del buffer[:excess]` empties the buffer
but the whole oversized `data` is then appended, so the claimed bound
"length ≤ max_buffer_size after each operation, including oversized feeds"
is false at this concrete input. -/
theorem feed_oversized_exceeds_cap :
    max_buffer_size <
      (runRBOps [] [RBOp.feed (List.replicate (max_buffer_size + 1) 0)]).length := by
  rw [runRBOps_single_feed]
  rw [feed_data_length]
  rw [List.length_nil, List.length_replicate]
  rw [if_pos (by omega)]
  omega

/-- C3 (amended): starting from an empty buffer, after any sequence of
`feed_data`/`read`/`clear` operations in which every fed chunk is at most
`max_buffer_size` bytes, the buffer length stays at most `max_buffer_size`;
moreover eviction is oldest-first: for a chunk within the cap, `feed_data`
keeps exactly the newest `max_buffer_size` bytes of `buffer ++ data`. -/
theorem ring_buffer_bounded_oldest_first :
    (∀ ops : List RBOp, (∀ op ∈ ops, rbOpFeedSize op ≤ max_buffer_size) →
       (runRBOps [] ops).length ≤ max_buffer_size)
    ∧ (∀ buffer data : List Nat, data.length ≤ max_buffer_size →
       feed_data buffer data =
         (buffer ++ data).drop (buffer.length + data.length - max_buffer_size)) :=
  ⟨fun ops hops => runRBOps_le ops [] (by simp [max_buffer_size]) hops,
   feed_data_eq_drop_append⟩

/-- C3 (witness): the amended theorem applied to a concrete operation
sequence and a concrete small feed. -/
theorem ring_buffer_bounded_oldest_first_witness :
    (runRBOps [] [RBOp.feed [7, 8], RBOp.readOp 1]).length ≤ max_buffer_size
    ∧ feed_data [1, 2] [3] =
        (([1, 2] ++ [3]).drop (([1, 2] : List Nat).length + ([3] : List Nat).length - max_buffer_size)) :=
  ⟨ring_buffer_bounded_oldest_first.1 [RBOp.feed [7, 8], RBOp.readOp 1] (by decide),
   ring_buffer_bounded_oldest_first.2 [1, 2] [3] (by decide)⟩

/-- C8: the default ring-buffer capacity in `RTPStreamReader.__init__` is
32000 bytes, not the 51200 asserted by the spec and by the repository's own
unit test `test_rtp_server.py::test_initialization`. -/
theorem default_cap_is_32000_not_51200 :
    max_buffer_size = 32000 ∧ max_buffer_size ≠ 51200 := by decide

/-! ## Datagram demultiplexing (rtp_server.py, RTPProtocol.datagram_received)

The stream registry is the insertion-ordered list of
`(port, remote_addr)` pairs of `RTPServer.streams`; an address is an
`(ip, port)` pair. The association loop walks the registry once: a stream
whose `remote_addr` equals the sender wins, otherwise the first stream with
`remote_addr is None` is bound to the sender and wins.
-/

/-- Remote peer address, `(ip, port)` as delivered by the UDP transport. -/
abbrev RtpAddr : Type := String × Nat

/-- The stream-association loop of `datagram_received`: returns the port of
the selected target stream (if any) together with the updated registry
(binding applied when an unbound stream was selected). -/
def datagram_target :
    List (Nat × Option RtpAddr) → RtpAddr → Option Nat × List (Nat × Option RtpAddr)
  | [], _ => (none, [])
  | (port, some a) :: rest, addr =>
      if a = addr then (some port, (port, some a) :: rest)
      else
        let r := datagram_target rest addr
        (r.1, (port, some a) :: r.2)
  | (port, none) :: rest, addr => (some port, (port, some addr) :: rest)

/-- Demo registry for the counterexample: stream 100 declared first and
unbound, stream 200 already bound to the demo address. -/
def demoStreams : List (Nat × Option RtpAddr) :=
  [(100, none), (200, some (("10.0.0.5", 4000) : RtpAddr))]

/-- C2: a datagram from an address to which stream 200 is already bound is
used to bind and target the earlier-declared unbound stream 100, so the
claim "a stream bound to addr is always selected, and an unbound stream is
only bound when no stream is bound to addr" is false at this input. -/
theorem bound_stream_not_selected :
    ((200, some (("10.0.0.5", 4000) : RtpAddr)) ∈ demoStreams)
    ∧ (datagram_target demoStreams (("10.0.0.5", 4000) : RtpAddr)).1 = some 100
    ∧ (datagram_target demoStreams (("10.0.0.5", 4000) : RtpAddr)).2
        = [(100, some (("10.0.0.5", 4000) : RtpAddr)),
           (200, some (("10.0.0.5", 4000) : RtpAddr))] :=
  ⟨by decide, by decide, by decide⟩

/-- C2 (amended): the demultiplexer performs a single in-order scan; the
target is the first stream whose `remote_addr` equals the sender or is
unset (the unset one being bound on selection). A datagram from an
already-bound address therefore reaches the bound stream only when no
unbound stream precedes it in declaration order. -/
theorem datagram_target_first_match (streams : List (Nat × Option RtpAddr)) (addr : RtpAddr) :
    (datagram_target streams addr).1 =
      (streams.find? fun s => decide (s.2 = some addr ∨ s.2 = none)).map (fun s => s.1) := by
  induction streams with
  | nil => rfl
  | cons s rest ih =>
      obtain ⟨port, remote⟩ := s
      cases remote with
      | none =>
          rw [List.find?_cons_of_pos _ (by simp)]
          simp [datagram_target]
      | some a =>
          by_cases h : a = addr
          · subst h
            rw [List.find?_cons_of_pos _ (by simp)]
            simp [datagram_target]
          · rw [List.find?_cons_of_neg _ (by simp [h])]
            simp only [datagram_target, if_neg h]
            exact ih

/-! ## Speaker reconciliation (asterisk_bridge.py, _handle_stasis_start)

After both RTP streams exist, `_handle_stasis_start` assigns
`speaker_*_in` from the caller fields and `speaker_*_out` from the
connected-party fields, then, when `rtp_stream_in.remote_addr` is set and
its port equals `int(rtp_source_port_out)`, swaps the two identities.
-/

/-- Display identity of a call party (name, number). -/
structure Identity where
  name : String
  number : String
deriving DecidableEq

/-- The port-reconciliation step of `_handle_stasis_start` (lines 345-364):
given the `remote_addr` the in-direction stream is bound to (if any), the
advertised out-direction source port, and the caller / connected-party
identities, produce the `(speaker_in, speaker_out)` labels. -/
def reconcile_speakers (remote_addr_in : Option RtpAddr) (rtp_source_port_out : Nat)
    (caller connected : Identity) : Identity × Identity :=
  match remote_addr_in with
  | some addr =>
      if addr.2 = rtp_source_port_out then (connected, caller) else (caller, connected)
  | none => (caller, connected)

/-- The party whose audio a peer sending from port `p` carries: the
in-direction external-media channel sends the caller's audio from
`rtp_source_port_in`, the out-direction one the connected party's audio
from `rtp_source_port_out`. This states the claim's environment assumption
about which tap uses which advertised port. -/
def audio_source_party (rtp_source_port_in : Nat) (caller connected : Identity)
    (p : Nat) : Identity :=
  if p = rtp_source_port_in then caller else connected

/-- C1: whichever of the two advertised ports the in-direction stream got
bound to, after reconciliation the in label carries the identity of the
party actually sending to that stream, and the out label the other party;
in particular when the bound port equals `rtp_source_port_out` the
identities are swapped. -/
theorem reconcile_labels_match_audio (host : String)
    (port_in port_out bound : Nat) (caller connected : Identity)
    (hne : port_in ≠ port_out) (hbound : bound = port_in ∨ bound = port_out) :
    reconcile_speakers (some (host, bound)) port_out caller connected =
      (audio_source_party port_in caller connected bound,
       audio_source_party port_in caller connected
         (if bound = port_in then port_out else port_in)) := by
  cases hbound with
  | inl h =>
      subst h
      simp [reconcile_speakers, audio_source_party, hne, Ne.symm hne]
  | inr h =>
      subst h
      simp [reconcile_speakers, audio_source_party, Ne.symm hne]

/-- C1 (witness): ports 20000/20002 with the in stream bound to 20002 (the
swapped arrival of spec scenario 5): the in direction gets the connected
party's identity, matching the audio it receives. -/
theorem reconcile_labels_match_audio_witness :
    reconcile_speakers (some ("10.0.0.9", 20002)) 20002
        ⟨"Alice", "100"⟩ ⟨"Bob", "200"⟩ =
      (audio_source_party 20000 ⟨"Alice", "100"⟩ ⟨"Bob", "200"⟩ 20002,
       audio_source_party 20000 ⟨"Alice", "100"⟩ ⟨"Bob", "200"⟩
         (if 20002 = 20000 then 20002 else 20000)) :=
  reconcile_labels_match_audio "10.0.0.9" 20000 20002 20002
    ⟨"Alice", "100"⟩ ⟨"Bob", "200"⟩ (by decide) (Or.inr rfl)

/-! ## Call teardown (asterisk_bridge.py, close_channel)

`close_channel` is modelled as the ordered sequence of externally visible
actions it performs on a call record. The record's fields mirror the keys
the code reads: the connector, the per-direction bridge, external-media
channel and snoop channel ids, and the per-direction RTP source ports.
-/

/-- The per-call record fields that `close_channel` consults. -/
structure ChannelRecord where
  connector : Bool
  bridge_in : Option String
  bridge_out : Option String
  external_media_channel_in : Option String
  external_media_channel_out : Option String
  snoop_channel_in : Option String
  snoop_channel_out : Option String
  rtp_source_port_in : Option Nat
  rtp_source_port_out : Option Nat
deriving DecidableEq

/-- Externally visible teardown steps. -/
inductive TeardownAction where
  | close_connector
  | delete_bridge (id : String)
  | delete_external_media (id : String)
  | delete_snoop (id : String)
  | end_stream (port : Nat)
  | remove_call_record
  | discard_pending_request
deriving DecidableEq

/-- Emit one action for a present optional field, none otherwise. -/
def opt_act {α : Type} (f : α → TeardownAction) : Option α → List TeardownAction
  | some x => [f x]
  | none => []

/-- The ordered actions of `close_channel` (lines 476-518): close the
connector, delete the bridges (`in` then `out`), delete the external-media
channels, end the RTP streams by source port, delete the record, discard
any pending transcription request. The code contains no deletion of the
snoop channels. -/
def close_channel_actions (ch : ChannelRecord) : List TeardownAction :=
  (if ch.connector then [TeardownAction.close_connector] else [])
    ++ opt_act TeardownAction.delete_bridge ch.bridge_in
    ++ opt_act TeardownAction.delete_bridge ch.bridge_out
    ++ opt_act TeardownAction.delete_external_media ch.external_media_channel_in
    ++ opt_act TeardownAction.delete_external_media ch.external_media_channel_out
    ++ opt_act TeardownAction.end_stream ch.rtp_source_port_in
    ++ opt_act TeardownAction.end_stream ch.rtp_source_port_out
    ++ [TeardownAction.remove_call_record, TeardownAction.discard_pending_request]

/-- Is the action an ARI deletion of a snoop channel? -/
def is_snoop_delete : TeardownAction → Bool
  | .delete_snoop _ => true
  | _ => false

/-- A fully populated call record as `close_channel` would see it for a
call whose whole tap pipeline was built. -/
def demoChannel : ChannelRecord :=
  { connector := true
    bridge_in := some "bridge-in-ch1"
    bridge_out := some "bridge-out-ch1"
    external_media_channel_in := some "ext-media-in-ch1"
    external_media_channel_out := some "ext-media-out-ch1"
    snoop_channel_in := some "snoop-in-ch1"
    snoop_channel_out := some "snoop-out-ch1"
    rtp_source_port_in := some 20000
    rtp_source_port_out := some 20002 }

/-- C4: teardown of a fully built call issues no snoop-channel deletion,
even though both snoop channel ids are recorded on the call; the claim
that both snoop channels are deleted via an ARI request is false. -/
theorem teardown_never_deletes_snoops :
    demoChannel.snoop_channel_in = some "snoop-in-ch1"
    ∧ demoChannel.snoop_channel_out = some "snoop-out-ch1"
    ∧ ((close_channel_actions demoChannel).any is_snoop_delete) = false :=
  ⟨rfl, rfl, by decide⟩

theorem opt_act_any_false {α : Type} (f : α → TeardownAction) (o : Option α)
    (hf : ∀ x, is_snoop_delete (f x) = false) :
    (opt_act f o).any is_snoop_delete = false := by
  cases o <;> simp [opt_act, hf]

theorem close_channel_actions_no_snoop (ch : ChannelRecord) :
    (close_channel_actions ch).any is_snoop_delete = false := by
  have hb : ∀ s, is_snoop_delete (TeardownAction.delete_bridge s) = false := fun _ => rfl
  have he : ∀ s, is_snoop_delete (TeardownAction.delete_external_media s) = false := fun _ => rfl
  have hp : ∀ p, is_snoop_delete (TeardownAction.end_stream p) = false := fun _ => rfl
  simp only [close_channel_actions, List.any_append, Bool.or_eq_false_iff]
  refine ⟨⟨⟨⟨⟨⟨⟨?_, opt_act_any_false _ _ hb⟩, opt_act_any_false _ _ hb⟩,
    opt_act_any_false _ _ he⟩, opt_act_any_false _ _ he⟩,
    opt_act_any_false _ _ hp⟩, opt_act_any_false _ _ hp⟩, by simp [is_snoop_delete]⟩
  cases ch.connector <;> simp [is_snoop_delete]

/-- C4 (amended): teardown of a call performs — besides removing the call
record and discarding any pending transcription request — the connector
close when a connector exists, the deletion of each recorded bridge and
external-media channel, and `end_stream` for each recorded RTP source
port; it never deletes a snoop channel. -/
theorem teardown_steps_no_snoop_delete (ch : ChannelRecord) :
    ((close_channel_actions ch).any is_snoop_delete = false)
    ∧ TeardownAction.remove_call_record ∈ close_channel_actions ch
    ∧ TeardownAction.discard_pending_request ∈ close_channel_actions ch
    ∧ (ch.connector = true → TeardownAction.close_connector ∈ close_channel_actions ch)
    ∧ (∀ b, ch.bridge_in = some b → TeardownAction.delete_bridge b ∈ close_channel_actions ch)
    ∧ (∀ b, ch.bridge_out = some b → TeardownAction.delete_bridge b ∈ close_channel_actions ch)
    ∧ (∀ e, ch.external_media_channel_in = some e →
        TeardownAction.delete_external_media e ∈ close_channel_actions ch)
    ∧ (∀ e, ch.external_media_channel_out = some e →
        TeardownAction.delete_external_media e ∈ close_channel_actions ch)
    ∧ (∀ p, ch.rtp_source_port_in = some p →
        TeardownAction.end_stream p ∈ close_channel_actions ch)
    ∧ (∀ p, ch.rtp_source_port_out = some p →
        TeardownAction.end_stream p ∈ close_channel_actions ch) := by
  refine ⟨close_channel_actions_no_snoop ch, ?_, ?_, ?_, ?_, ?_, ?_, ?_, ?_, ?_⟩
  · simp [close_channel_actions, List.mem_append]
  · simp [close_channel_actions, List.mem_append]
  · intro h
    simp [close_channel_actions, List.mem_append, h]
  · intro b h
    simp [close_channel_actions, List.mem_append, opt_act, h]
  · intro b h
    simp [close_channel_actions, List.mem_append, opt_act, h]
  · intro e h
    simp [close_channel_actions, List.mem_append, opt_act, h]
  · intro e h
    simp [close_channel_actions, List.mem_append, opt_act, h]
  · intro p h
    simp [close_channel_actions, List.mem_append, opt_act, h]
  · intro p h
    simp [close_channel_actions, List.mem_append, opt_act, h]

/-- C4 (witness): the amended theorem applied to the fully built demo call. -/
theorem teardown_steps_no_snoop_delete_witness :
    ((close_channel_actions demoChannel).any is_snoop_delete = false)
    ∧ TeardownAction.delete_bridge "bridge-in-ch1" ∈ close_channel_actions demoChannel
    ∧ TeardownAction.end_stream 20002 ∈ close_channel_actions demoChannel
    ∧ TeardownAction.close_connector ∈ close_channel_actions demoChannel :=
  ⟨(teardown_steps_no_snoop_delete demoChannel).1,
   (teardown_steps_no_snoop_delete demoChannel).2.2.2.2.1 "bridge-in-ch1" rfl,
   (teardown_steps_no_snoop_delete demoChannel).2.2.2.2.2.2.2.2.2 20002 rfl,
   (teardown_steps_no_snoop_delete demoChannel).2.2.2.1 rfl⟩

/-! ## STT connector close (deepgram_connector.py, DeepgramConnector.close)

`close` is modelled as a state transition emitting the actions it performs.
The state keeps the fields `close` reads or writes: the `connected` flag
and the `complete_call` list of final messages (only the `speaker_name`
and `transcription` fields of each saved message are consumed). -/

/-- A saved final transcription event, restricted to the fields `close`
consumes. -/
structure FinalMessage where
  speaker_name : String
  transcription : String
deriving DecidableEq

/-- The transcript-building loop of `close` (lines 239-245): walk
`complete_call` keeping the previous speaker; on a speaker change append
`"\n<speaker>: "`, then always append the utterance followed by `"\n"`. -/
def build_final_transcript (complete_call : List FinalMessage) : String :=
  (complete_call.foldl
    (fun acc m =>
      let text :=
        if acc.2 ≠ some m.speaker_name then acc.1 ++ "\n" ++ m.speaker_name ++ ": "
        else acc.1
      (text ++ m.transcription ++ "\n", some m.speaker_name))
    ("", (none : Option String))).1

/-- Connector state touched by `close`. -/
structure ConnectorState where
  connected : Bool
  complete_call : List FinalMessage
deriving DecidableEq

/-- The externally visible steps of `close`. -/
inductive ConnectorAction where
  | finalize
  | socket_close
  | cancel_read_task
  | cancel_send_task
  | publish_final (uniqueid : String) (raw_transcription : String)
  | spawn_ai_summary
deriving DecidableEq

/-- `DeepgramConnector.close` (lines 228-256): unconditionally set
`connected = False`, finalize, close the socket, cancel both audio tasks,
build the final transcript and publish it on the `final` topic, then spawn
the background AI summary task. There is no guard or lock: the body runs
on every call. -/
def connector_close (uniqueid : String) (s : ConnectorState) :
    List ConnectorAction × ConnectorState :=
  ([ConnectorAction.finalize, ConnectorAction.socket_close,
    ConnectorAction.cancel_read_task, ConnectorAction.cancel_send_task,
    ConnectorAction.publish_final uniqueid (build_final_transcript s.complete_call),
    ConnectorAction.spawn_ai_summary],
   { s with connected := false })

/-- C5: on the final-message list [Alice: "hi", Bob: "hello"] the code
produces `"\nAlice: hi\n\nBob: hello\n"` — each utterance gets a trailing
newline and each speaker change a leading newline, so the claimed exact
string `"\nAlice: hi\nBob: hello\n"` is wrong. -/
theorem final_transcript_not_claimed_string :
    build_final_transcript [⟨"Alice", "hi"⟩, ⟨"Bob", "hello"⟩]
      ≠ "\nAlice: hi\nBob: hello\n" := by decide

/-- C5 (amended): the final transcript prefixes each consecutive
same-speaker run with `"\n<speaker>: "` and terminates every utterance
with `"\n"`; for [Alice: "hi", Bob: "hello"] the published
`raw_transcription` is exactly `"\nAlice: hi\n\nBob: hello\n"`, and a
same-speaker run keeps its utterances under one prefix. -/
theorem final_transcript_exact_strings :
    build_final_transcript [⟨"Alice", "hi"⟩, ⟨"Bob", "hello"⟩]
        = "\nAlice: hi\n\nBob: hello\n"
    ∧ build_final_transcript [⟨"Alice", "hi"⟩, ⟨"Alice", "there"⟩, ⟨"Bob", "hello"⟩]
        = "\nAlice: hi\nthere\n\nBob: hello\n" := by
  constructor <;> decide

/-- C7: `close` is not idempotent: a second call on the already-closed
state emits the same non-empty action sequence again — including a second
`final` publish — instead of returning immediately. -/
theorem connector_close_repeats_work :
    (connector_close "1111.2" ((connector_close "1111.2"
        ⟨true, [⟨"Alice", "hi"⟩]⟩).2)).1
      = (connector_close "1111.2" ⟨true, [⟨"Alice", "hi"⟩]⟩).1
    ∧ (connector_close "1111.2" ((connector_close "1111.2"
        ⟨true, [⟨"Alice", "hi"⟩]⟩).2)).1 ≠ []
    ∧ ConnectorAction.publish_final "1111.2"
          (build_final_transcript [⟨"Alice", "hi"⟩])
        ∈ (connector_close "1111.2" ((connector_close "1111.2"
            ⟨true, [⟨"Alice", "hi"⟩]⟩).2)).1 := by
  refine ⟨rfl, by decide, by decide⟩

/-- C7 (amended): every call of `close`, including any repeated call,
performs the finalize, the socket close, both task cancellations and the
`final` publish; there is no lock or idempotency guard, so a re-entrant
call repeats exactly the same actions. -/
theorem connector_close_always_runs_body (uniqueid : String) (s : ConnectorState) :
    (connector_close uniqueid s).1 =
      [ConnectorAction.finalize, ConnectorAction.socket_close,
       ConnectorAction.cancel_read_task, ConnectorAction.cancel_send_task,
       ConnectorAction.publish_final uniqueid (build_final_transcript s.complete_call),
       ConnectorAction.spawn_ai_summary]
    ∧ (connector_close uniqueid ((connector_close uniqueid s).2)).1
        = (connector_close uniqueid s).1
    ∧ ((connector_close uniqueid s).2).connected = false :=
  ⟨rfl, rfl, rfl⟩

/-- C7 (witness): the amended theorem at a concrete connector state. -/
theorem connector_close_always_runs_body_witness :
    (connector_close "42.7" ⟨true, []⟩).1 =
      [ConnectorAction.finalize, ConnectorAction.socket_close,
       ConnectorAction.cancel_read_task, ConnectorAction.cancel_send_task,
       ConnectorAction.publish_final "42.7" (build_final_transcript []),
       ConnectorAction.spawn_ai_summary]
    ∧ (connector_close "42.7" ((connector_close "42.7" ⟨true, []⟩).2)).1
        = (connector_close "42.7" ⟨true, []⟩).1
    ∧ ((connector_close "42.7" ⟨true, []⟩).2).connected = false :=
  connector_close_always_runs_body "42.7" ⟨true, []⟩

/-! ## Transcript persistence (db.py)

The `transcripts` table is modelled as a map from `uniqueid` to an optional
row. The schema declares `state TEXT NOT NULL DEFAULT 'done'`, so an insert
that omits the state column stores `done`.
-/

/-- The four-valued transcript state pinned by the table CHECK constraint. -/
inductive TState where
  | progress
  | failed
  | summarizing
  | done
deriving DecidableEq

/-- A transcript row restricted to the columns the claims talk about. -/
structure TranscriptRow where
  state : TState
  raw_transcription : String
deriving DecidableEq

/-- The transcripts table, one optional row per `uniqueid`. -/
def TranscriptsTable : Type := String → Option TranscriptRow

/-- `db.upsert_transcript_raw`: insert `(uniqueid, raw_transcription)` —
the omitted state column takes the schema default `'done'` — or, on
conflict, update only `raw_transcription` (and `updated_at`), leaving the
existing state untouched. -/
def upsert_transcript_raw (table : TranscriptsTable) (uniqueid raw_transcription : String) :
    TranscriptsTable :=
  fun u =>
    if u = uniqueid then
      match table uniqueid with
      | none => some ⟨TState.done, raw_transcription⟩
      | some row => some ⟨row.state, raw_transcription⟩
    else table u

/-- `db.upsert_transcript_progress`: insert `(uniqueid, "", 'progress')`
or, on conflict, set state to `'progress'` leaving the stored raw
transcription unchanged. -/
def upsert_transcript_progress (table : TranscriptsTable) (uniqueid : String) :
    TranscriptsTable :=
  fun u =>
    if u = uniqueid then
      match table uniqueid with
      | none => some ⟨TState.progress, ""⟩
      | some row => some ⟨TState.progress, row.raw_transcription⟩
    else table u

/-- C10: inserting via `upsert_transcript_raw` for a uniqueid with no
existing row stores state `done` (the column default), never `progress`;
`upsert_transcript_raw` can only leave a row in `progress` if the row was
already in `progress`, while `upsert_transcript_progress` is the operation
that sets `progress`. -/
theorem upsert_raw_fresh_row_is_done :
    (∀ (table : TranscriptsTable) (uid raw : String), table uid = none →
       upsert_transcript_raw table uid raw uid = some ⟨TState.done, raw⟩)
    ∧ (∀ (table : TranscriptsTable) (uid raw u : String) (row : TranscriptRow),
       upsert_transcript_raw table uid raw u = some row →
       row.state = TState.progress →
       ∃ prev, table u = some prev ∧ prev.state = TState.progress)
    ∧ (∀ (table : TranscriptsTable) (uid : String),
       (upsert_transcript_progress table uid uid).map TranscriptRow.state
         = some TState.progress) := by
  refine ⟨?_, ?_, ?_⟩
  · intro table uid raw h
    simp [upsert_transcript_raw, h]
  · intro table uid raw u row hres hstate
    by_cases hu : u = uid
    · subst hu
      simp only [upsert_transcript_raw, if_pos rfl] at hres
      cases htab : table u with
      | none =>
          rw [htab] at hres
          simp at hres
          rw [← hres] at hstate
          simp at hstate
      | some prev =>
          rw [htab] at hres
          simp at hres
          refine ⟨prev, rfl, ?_⟩
          rw [← hres] at hstate
          exact hstate
    · refine ⟨row, ?_, hstate⟩
      simpa [upsert_transcript_raw, hu] using hres
  · intro table uid
    cases htab : table uid <;> simp [upsert_transcript_progress, htab]

/-- C10 (witness): the theorem at an empty table and at a table holding a
row in `progress`. -/
theorem upsert_raw_fresh_row_is_done_witness :
    upsert_transcript_raw (fun _ => none) "1000.1" "hi there" "1000.1"
        = some ⟨TState.done, "hi there"⟩
    ∧ (upsert_transcript_progress (fun _ => none) "1000.1" "1000.1").map
        TranscriptRow.state = some TState.progress :=
  ⟨upsert_raw_fresh_row_is_done.1 (fun _ => none) "1000.1" "hi there" rfl,
   upsert_raw_fresh_row_is_done.2.2 (fun _ => none) "1000.1"⟩

/-! ## Batch endpoint enrichment tail (api.py, get_transcription)

After the raw transcript is (optionally) persisted, `get_transcription`
runs the enrichment block. Its guard is
`os.getenv("OPENAI_API_KEY") and transcript_id is not None and
raw_transcription`; there is no check of the request's `summary` field,
which is only forwarded to the worker subprocess. -/

/-- Database/worker steps taken by the enrichment tail. -/
inductive EnrichStep where
  | set_state (s : TState)
  | run_call_processor (summary : Bool)
deriving DecidableEq

/-- The enrichment tail of `get_transcription` (lines 595-620):
`did_enrichment` is true exactly when the OpenAI key is set, a transcript
row was reserved, and the raw transcription is non-empty; in that case the
row is set to `summarizing`, the worker subprocess runs with the forwarded
`summary` flag, and the row is set to `done` (or `failed` when the worker
raises); otherwise, when a row exists, it is set to `done` directly. -/
def enrichment_tail (openai_key_set : Bool) (transcript_id : Option Nat)
    (raw_transcription : String) (summary worker_ok : Bool) : List EnrichStep :=
  let did_enrichment :=
    openai_key_set && transcript_id.isSome && !(raw_transcription == "")
  if did_enrichment then
    [EnrichStep.set_state TState.summarizing, EnrichStep.run_call_processor summary]
      ++ (if worker_ok then [EnrichStep.set_state TState.done]
          else [EnrichStep.set_state TState.failed])
  else if transcript_id.isSome then [EnrichStep.set_state TState.done]
  else []

/-- C6: with the OpenAI key present, a row reserved and a non-empty raw
transcript, the request with `summary = false` still transitions the row
to `summarizing` and invokes the worker — the claim that `summary = false`
skips `summarizing` and the worker is false at this input. -/
theorem enrichment_runs_despite_summary_false :
    enrichment_tail true (some 1) "Alice: hi" false true
      = [EnrichStep.set_state TState.summarizing,
         EnrichStep.run_call_processor false,
         EnrichStep.set_state TState.done]
    ∧ EnrichStep.set_state TState.summarizing
        ∈ enrichment_tail true (some 1) "Alice: hi" false true := by
  refine ⟨by decide, by decide⟩

/-- C6 (amended): the row enters `summarizing` and the worker is invoked
exactly when the OpenAI key is set, a row was reserved, and the raw
transcript is non-empty — independent of the request's `summary` field,
which is only forwarded to the worker; the row is marked `done`
immediately (without `summarizing`) exactly when a row exists but one of
those conditions fails. -/
theorem enrichment_gated_on_key_not_summary (openai_key_set : Bool)
    (transcript_id : Option Nat) (raw_transcription : String)
    (summary worker_ok : Bool) :
    (EnrichStep.set_state TState.summarizing
        ∈ enrichment_tail openai_key_set transcript_id raw_transcription summary worker_ok
      ↔ (openai_key_set = true ∧ transcript_id.isSome = true ∧ raw_transcription ≠ ""))
    ∧ (EnrichStep.run_call_processor summary
        ∈ enrichment_tail openai_key_set transcript_id raw_transcription summary worker_ok
      ↔ (openai_key_set = true ∧ transcript_id.isSome = true ∧ raw_transcription ≠ ""))
    ∧ (¬(openai_key_set = true ∧ transcript_id.isSome = true ∧ raw_transcription ≠ "") →
        transcript_id.isSome = true →
        enrichment_tail openai_key_set transcript_id raw_transcription summary worker_ok
          = [EnrichStep.set_state TState.done]) := by
  rcases transcript_id with _ | n <;>
    cases openai_key_set <;>
    by_cases hraw : raw_transcription = "" <;>
    cases worker_ok <;>
    simp [enrichment_tail, hraw]

/-- C6 (witness): the amended theorem at concrete inputs, both with the
gate satisfied (summary = false still enters summarizing) and with it
failed. -/
theorem enrichment_gated_on_key_not_summary_witness :
    (EnrichStep.set_state TState.summarizing
        ∈ enrichment_tail true (some 1) "Alice: hi" false true)
    ∧ enrichment_tail false (some 1) "Alice: hi" false true
        = [EnrichStep.set_state TState.done] :=
  ⟨(enrichment_gated_on_key_not_summary true (some 1) "Alice: hi" false true).1.mpr
      ⟨rfl, rfl, by decide⟩,
   (enrichment_gated_on_key_not_summary false (some 1) "Alice: hi" false true).2.2
      (by simp) rfl⟩

/-! ## Process startup (main.py)

`main()` returns early — without raising — when `DEEPGRAM_API_KEY` is
unset (or when a configured Google-credentials path does not exist); the
`__main__` guard merely runs `asyncio.run(main())`, so a plain return
leaves the interpreter exiting with status 0. -/

/-- The environment facts `main()` inspects before starting services. -/
structure StartupEnv where
  deepgram_api_key_set : Bool
  google_credentials_path_set : Bool
  google_credentials_file_exists : Bool
deriving DecidableEq

/-- How far `main()` gets before waiting for the shutdown signal. -/
inductive StartupOutcome where
  | missing_deepgram_key
  | missing_google_credentials
  | services_started
deriving DecidableEq

/-- The startup checks of `main()` (lines 30-45): log and return when the
Deepgram key is unset; log and return when a configured Google credentials
file is absent; otherwise proceed to start the services. -/
def startup_outcome (env : StartupEnv) : StartupOutcome :=
  if !env.deepgram_api_key_set then StartupOutcome.missing_deepgram_key
  else if env.google_credentials_path_set && !env.google_credentials_file_exists then
    StartupOutcome.missing_google_credentials
  else StartupOutcome.services_started

/-- Process exit status when `main()` returns during startup: the
`__main__` block is a bare `asyncio.run(main())`, so an early return
propagates no exception and the interpreter exits 0. `none` means the
process keeps running (services started). -/
def startup_exit_code (env : StartupEnv) : Option Nat :=
  match startup_outcome env with
  | StartupOutcome.missing_deepgram_key => some 0
  | StartupOutcome.missing_google_credentials => some 0
  | StartupOutcome.services_started => none

/-- C9: with `DEEPGRAM_API_KEY` unset the process exits with status 0, not
a nonzero status — `main()` logs the error and returns normally, so the
claim that a missing required key yields a nonzero exit code is false. -/
theorem missing_key_exits_zero :
    startup_outcome ⟨false, false, false⟩ = StartupOutcome.missing_deepgram_key
    ∧ startup_exit_code ⟨false, false, false⟩ = some 0 := by
  refine ⟨rfl, rfl⟩

/-- C9 (amended): whenever the Deepgram key is unset, `main()` takes the
missing-key early return and the process exit status is 0 (services are
never started, but no nonzero status is reported). -/
theorem missing_key_returns_early_with_zero (env : StartupEnv)
    (h : env.deepgram_api_key_set = false) :
    startup_outcome env = StartupOutcome.missing_deepgram_key
    ∧ startup_exit_code env = some 0 := by
  constructor
  · simp [startup_outcome, h]
  · simp [startup_exit_code, startup_outcome, h]

/-- C9 (witness): the amended theorem at a concrete environment. -/
theorem missing_key_returns_early_with_zero_witness :
    startup_outcome ⟨false, true, true⟩ = StartupOutcome.missing_deepgram_key
    ∧ startup_exit_code ⟨false, true, true⟩ = some 0 :=
  missing_key_returns_early_with_zero ⟨false, true, true⟩ rfl

end Satellite
